import Mathlib

/-!
Shallow embedding of whisper_transcribe.py.

The script defines a single function transcribe that loads the
pretrained model named base via the external whisper library, runs
inference on the given audio path, and returns the text field of the
resulting dictionary.  The entry point checks the argument count,
prints a usage message and exits with code 1 when no positional
argument is given, and otherwise prints the transcription and exits
normally.

The external library is modelled as a structure of two functions, each
returning an Except value so that a raised Python exception is the
error case.  The type of loaded models is abstract.  A run of the
entry point is modelled as an Except value carrying the printed lines
and the exit code; an error value models an uncaught exception leaving
the program.
-/

/-- The dictionary returned by the external model inference call; the
script reads only the text field. -/
structure TranscribeResult where
  text : String
  language : String
  deriving Repr, DecidableEq

/-- The interface of the external whisper library, parametrised by the
abstract type of loaded models.  Each call may raise an exception,
modelled by the error case of Except. -/
structure WhisperLib (Model : Type) where
  load_model : String → Except String Model
  model_transcribe : Model → String → Except String TranscribeResult

/-- Embedding of the function transcribe of whisper_transcribe.py:
load the model named base, run inference on the audio path, and return
the text field of the result; an exception in either step aborts the
function with that exception. -/
def transcribe {Model : Type} (W : WhisperLib Model) (audio_path : String) :
    Except String String :=
  match W.load_model "base" with
  | Except.error e => Except.error e
  | Except.ok model =>
    match W.model_transcribe model audio_path with
    | Except.error e => Except.error e
    | Except.ok result => Except.ok result.text

/-- The usage string printed by the entry point when no positional
argument is given. -/
def usageMessage : String := "Usage: python whisper_transcribe.py <audio_file>"

/-- Observable outcome of a terminating run: lines printed to standard
output, lines printed to standard error, and the exit code. -/
structure RunResult where
  stdout : List String
  stderr : List String
  exitCode : Nat
  deriving Repr, DecidableEq

/-- Embedding of the entry point of whisper_transcribe.py: with fewer
than two entries in argv, print the usage message and exit with code 1;
otherwise transcribe the second entry of argv and print the result,
exiting normally with code 0.  An uncaught exception is the error
case. -/
def mainRun {Model : Type} (W : WhisperLib Model) (argv : List String) :
    Except String RunResult :=
  if argv.length < 2 then
    Except.ok { stdout := [usageMessage], stderr := [], exitCode := 1 }
  else
    let audio_file := argv.getD 1 ""
    match transcribe W audio_file with
    | Except.error e => Except.error e
    | Except.ok transcription =>
      Except.ok { stdout := [transcription], stderr := [], exitCode := 0 }

/-- A call into the external library, as recorded by the traced
embedding: loading a model by name, or running inference on an audio
path. -/
inductive LibCall where
  | load (name : String)
  | infer (audio_path : String)
  deriving Repr, DecidableEq

/-- Whether a recorded library call is an inference call. -/
def LibCall.isInfer : LibCall → Bool
  | LibCall.infer _ => true
  | LibCall.load _ => false

/-- Whether a recorded library call is a model-load call. -/
def LibCall.isLoad : LibCall → Bool
  | LibCall.load _ => true
  | LibCall.infer _ => false

/-- Traced embedding of transcribe: the same result as transcribe,
paired with the list of library calls the run performs, in order. -/
def transcribeTr {Model : Type} (W : WhisperLib Model) (audio_path : String) :
    Except String String × List LibCall :=
  match W.load_model "base" with
  | Except.error e => (Except.error e, [LibCall.load "base"])
  | Except.ok model =>
    match W.model_transcribe model audio_path with
    | Except.error e =>
      (Except.error e, [LibCall.load "base", LibCall.infer audio_path])
    | Except.ok result =>
      (Except.ok result.text, [LibCall.load "base", LibCall.infer audio_path])

/-- Traced embedding of the entry point: the same outcome as mainRun,
paired with the list of library calls the run performs, in order. -/
def mainRunTr {Model : Type} (W : WhisperLib Model) (argv : List String) :
    Except String RunResult × List LibCall :=
  if argv.length < 2 then
    (Except.ok { stdout := [usageMessage], stderr := [], exitCode := 1 }, [])
  else
    match transcribeTr W (argv.getD 1 "") with
    | (Except.error e, tr) => (Except.error e, tr)
    | (Except.ok t, tr) =>
      (Except.ok { stdout := [t], stderr := [], exitCode := 0 }, tr)

/-- State-threaded embedding of transcribe over an arbitrary type of
ambient program state: the source assigns only local variables and
never reads or writes any global or persistent entity, so the ambient
state is passed through every step unchanged. -/
def transcribeSt {Model σ : Type} (W : WhisperLib Model) (g : σ)
    (audio_path : String) : Except String (String × σ) :=
  match W.load_model "base" with
  | Except.error e => Except.error e
  | Except.ok model =>
    match W.model_transcribe model audio_path with
    | Except.error e => Except.error e
    | Except.ok result => Except.ok (result.text, g)

/-- State-threaded embedding of the entry point over an arbitrary type
of ambient program state, passed through unchanged for the same reason
as in transcribeSt. -/
def mainRunSt {Model σ : Type} (W : WhisperLib Model) (g : σ)
    (argv : List String) : Except String (RunResult × σ) :=
  if argv.length < 2 then
    Except.ok ({ stdout := [usageMessage], stderr := [], exitCode := 1 }, g)
  else
    match transcribeSt W g (argv.getD 1 "") with
    | Except.error e => Except.error e
    | Except.ok (t, g2) =>
      Except.ok ({ stdout := [t], stderr := [], exitCode := 0 }, g2)

/-- A concrete library valuation whose inference always succeeds and
returns the text hello world. -/
def okLib : WhisperLib Unit where
  load_model := fun _ => Except.ok ()
  model_transcribe := fun _ _ =>
    Except.ok { text := "hello world", language := "en" }

/-- A concrete library valuation whose model load raises. -/
def errLoadLib : WhisperLib Unit where
  load_model := fun _ => Except.error "model download failure"
  model_transcribe := fun _ _ =>
    Except.ok { text := "unreachable", language := "en" }

/-- A concrete library valuation whose inference raises. -/
def errInferLib : WhisperLib Unit where
  load_model := fun _ => Except.ok ()
  model_transcribe := fun _ _ => Except.error "unsupported format"

/-- A concrete library valuation whose inference succeeds and returns
an empty text. -/
def emptyTextLib : WhisperLib Unit where
  load_model := fun _ => Except.ok ()
  model_transcribe := fun _ _ => Except.ok { text := "", language := "en" }

/-- C1: with at least one positional argument, the program takes the
first one as the audio path, calls transcribe on it, and prints the
returned text to standard output, exiting normally; an exception in
transcribe becomes the outcome of the run. -/
theorem transcription_flow {Model : Type} (W : WhisperLib Model)
    (s a : String) (rest : List String) :
    mainRun W (s :: a :: rest) =
      (transcribe W a).map
        (fun t => { stdout := [t], stderr := [], exitCode := 0 : RunResult }) := by
  cases h : transcribe W a <;> simp [mainRun, h, Except.map]

/-- C2: transcribe returns exactly the text field of the external
inference result on the given audio path, with no further
processing. -/
theorem transcribe_is_text_field {Model : Type} (W : WhisperLib Model)
    (m : Model) (r : TranscribeResult) (audio_path : String)
    (hload : W.load_model "base" = Except.ok m)
    (hinfer : W.model_transcribe m audio_path = Except.ok r) :
    transcribe W audio_path = Except.ok r.text := by
  simp [transcribe, hload, hinfer]

/-- Witness for C2 at a concrete library valuation. -/
theorem transcribe_is_text_field_witness :
    transcribe okLib "audio.wav" = Except.ok "hello world" :=
  transcribe_is_text_field okLib ()
    { text := "hello world", language := "en" } "audio.wav" rfl rfl

/-- C3: with fewer than two entries in argv, the run prints the usage
message, terminates with exit code 1, and performs no library call at
all, so no transcription is attempted. -/
theorem missing_argument_usage {Model : Type} (W : WhisperLib Model)
    (argv : List String) (h : argv.length < 2) :
    mainRunTr W argv =
      (Except.ok { stdout := [usageMessage], stderr := [], exitCode := 1 }, []) := by
  simp [mainRunTr, h]

/-- Witness for C3 at a concrete argument list. -/
theorem missing_argument_usage_witness :
    mainRunTr okLib ["whisper_transcribe.py"] =
      (Except.ok { stdout := [usageMessage], stderr := [], exitCode := 1 }, []) :=
  missing_argument_usage okLib ["whisper_transcribe.py"] (by decide)

/-- C4: an exception from model loading or from inference propagates
uncaught: it aborts transcribe with the same exception, and through
the entry point it becomes the outcome of the whole run. -/
theorem exceptions_propagate {Model : Type} (W : WhisperLib Model)
    (e s a : String) (rest : List String) :
    (W.load_model "base" = Except.error e →
      transcribe W a = Except.error e) ∧
    (∀ m : Model, W.load_model "base" = Except.ok m →
      W.model_transcribe m a = Except.error e →
      transcribe W a = Except.error e) ∧
    (transcribe W a = Except.error e →
      mainRun W (s :: a :: rest) = Except.error e) := by
  refine ⟨fun hload => ?_, fun m hload hinfer => ?_, fun htr => ?_⟩
  · simp [transcribe, hload]
  · simp [transcribe, hload, hinfer]
  · simp [mainRun, htr]

/-- Witness for C4: a load failure and an inference failure, each at a
concrete library valuation, reach the outcome of the run. -/
theorem exceptions_propagate_witness :
    mainRun errLoadLib ["whisper_transcribe.py", "audio.wav"] =
      Except.error "model download failure" ∧
    mainRun errInferLib ["whisper_transcribe.py", "audio.wav"] =
      Except.error "unsupported format" := by
  constructor
  · exact (exceptions_propagate errLoadLib "model download failure"
      "whisper_transcribe.py" "audio.wav" []).2.2
      ((exceptions_propagate errLoadLib "model download failure"
        "whisper_transcribe.py" "audio.wav" []).1 rfl)
  · exact (exceptions_propagate errInferLib "unsupported format"
      "whisper_transcribe.py" "audio.wav" []).2.2
      ((exceptions_propagate errInferLib "unsupported format"
        "whisper_transcribe.py" "audio.wav" []).2.1 () rfl rfl)

/-- C5 as stated is false: a run on a path the model transcribes
successfully can print an empty text, because the program prints
whatever text the model returns. -/
theorem empty_transcription_printed :
    mainRun emptyTextLib ["whisper_transcribe.py", "audio.wav"] =
      Except.ok { stdout := [""], stderr := [], exitCode := 0 } := rfl

/-- C5 amended: on a successful run the printed text is exactly the
text the model returns, so every printed line is non-empty whenever
the model returns a non-empty text. -/
theorem valid_path_output {Model : Type} (W : WhisperLib Model)
    (s a : String) (rest : List String) (m : Model) (r : TranscribeResult)
    (hload : W.load_model "base" = Except.ok m)
    (hinfer : W.model_transcribe m a = Except.ok r)
    (hne : r.text ≠ "") :
    ∃ out : RunResult, mainRun W (s :: a :: rest) = Except.ok out ∧
      out.stdout = [r.text] ∧ ∀ l ∈ out.stdout, l ≠ "" := by
  refine ⟨{ stdout := [r.text], stderr := [], exitCode := 0 }, ?_, rfl, ?_⟩
  · simp [mainRun, transcribe, hload, hinfer]
  · intro l hl
    rw [List.mem_singleton] at hl
    rw [hl]
    exact hne

/-- Witness for the amended C5 at a concrete library valuation. -/
theorem valid_path_output_witness :
    ∃ out : RunResult,
      mainRun okLib ["whisper_transcribe.py", "audio.wav"] = Except.ok out ∧
      out.stdout = ["hello world"] ∧ ∀ l ∈ out.stdout, l ≠ "" :=
  valid_path_output okLib "whisper_transcribe.py" "audio.wav" [] ()
    { text := "hello world", language := "en" } rfl rfl (by decide)


/-- Helper: unfolding of the entry point on an argument list with a
positional argument. -/
theorem mainRun_cons {Model : Type} (W : WhisperLib Model) (s a : String)
    (rest : List String) :
    mainRun W (s :: a :: rest) =
      match transcribe W a with
      | Except.error e => Except.error e
      | Except.ok t =>
        Except.ok { stdout := [t], stderr := [], exitCode := 0 } := by
  cases h : transcribe W a <;> simp [mainRun, h]

/-- Helper: unfolding of the traced entry point on an argument list
with a positional argument. -/
theorem mainRunTr_cons {Model : Type} (W : WhisperLib Model) (s a : String)
    (rest : List String) :
    mainRunTr W (s :: a :: rest) =
      match transcribeTr W a with
      | (Except.error e, tr) => (Except.error e, tr)
      | (Except.ok t, tr) =>
        (Except.ok { stdout := [t], stderr := [], exitCode := 0 }, tr) := by
  rcases h : transcribeTr W a with ⟨res, tr⟩
  cases res <;> simp [mainRunTr, h]

/-- Helper: unfolding of the state-threaded entry point on an argument
list with a positional argument. -/
theorem mainRunSt_cons {Model σ : Type} (W : WhisperLib Model) (g : σ)
    (s a : String) (rest : List String) :
    mainRunSt W g (s :: a :: rest) =
      match transcribeSt W g a with
      | Except.error e => Except.error e
      | Except.ok (t, g2) =>
        Except.ok ({ stdout := [t], stderr := [], exitCode := 0 }, g2) := by
  cases h : transcribeSt W g a with
  | error e => simp [mainRunSt, h]
  | ok p =>
    obtain ⟨t, g2⟩ := p
    simp [mainRunSt, h]

/-- Helper: the state-threaded transcribe returns the same result as
transcribe and leaves the ambient state unchanged. -/
theorem transcribeSt_pass {Model σ : Type} (W : WhisperLib Model) (g : σ)
    (p : String) :
    transcribeSt W g p = (transcribe W p).map (fun t => (t, g)) := by
  cases h1 : W.load_model "base" with
  | error e => simp [transcribeSt, transcribe, h1, Except.map]
  | ok m => cases h2 : W.model_transcribe m p <;>
      simp [transcribeSt, transcribe, h1, h2, Except.map]

/-- Helper: the trace of transcribe is the single load call when the
load fails, and the load call followed by one inference call
otherwise. -/
theorem transcribeTr_trace {Model : Type} (W : WhisperLib Model) (p : String) :
    (transcribeTr W p).2 = [LibCall.load "base"] ∨
    (transcribeTr W p).2 = [LibCall.load "base", LibCall.infer p] := by
  cases h1 : W.load_model "base" with
  | error e => simp [transcribeTr, h1]
  | ok m => cases h2 : W.model_transcribe m p <;> simp [transcribeTr, h1, h2]

/-- Helper: when the model loads, the trace of transcribe is exactly
the load call followed by one inference call. -/
theorem transcribeTr_trace_of_load {Model : Type} (W : WhisperLib Model)
    (m : Model) (p : String) (hm : W.load_model "base" = Except.ok m) :
    (transcribeTr W p).2 = [LibCall.load "base", LibCall.infer p] := by
  cases h2 : W.model_transcribe m p <;> simp [transcribeTr, hm, h2]

/-- Helper: on an argument list with a positional argument, the traced
entry point records exactly the calls of transcribe on that
argument. -/
theorem mainRunTr_cons_trace {Model : Type} (W : WhisperLib Model)
    (s a : String) (rest : List String) :
    (mainRunTr W (s :: a :: rest)).2 = (transcribeTr W a).2 := by
  rw [mainRunTr_cons]
  rcases h : transcribeTr W a with ⟨res, tr⟩
  cases res <;> rfl

/-- C6: the program keeps no state: over any type of ambient program
state, transcribe and the entry point return exactly their stateless
results with the state passed through unchanged, so the only effect of
transcribe is its return value and the only further effect of the
entry point is the printed output and exit code. -/
theorem no_state_mutation {Model σ : Type} (W : WhisperLib Model) (g : σ)
    (audio_path : String) (argv : List String) :
    transcribeSt W g audio_path =
      (transcribe W audio_path).map (fun t => (t, g)) ∧
    mainRunSt W g argv = (mainRun W argv).map (fun r => (r, g)) := by
  refine ⟨transcribeSt_pass W g audio_path, ?_⟩
  rcases argv with _ | ⟨s, _ | ⟨a, rest⟩⟩
  · rfl
  · rfl
  · rw [mainRunSt_cons, mainRun_cons, transcribeSt_pass]
    cases transcribe W a <;> rfl

/-- C7: runs are deterministic in the argument list once the external
library is fixed, every run performs at most one inference call, and a
run with a positional argument on which the model loads performs
exactly one inference call. -/
theorem deterministic_single_inference {Model : Type} (W : WhisperLib Model)
    (argv₁ argv₂ : List String) (h : argv₁ = argv₂) :
    mainRunTr W argv₁ = mainRunTr W argv₂ ∧
    (mainRunTr W argv₁).2.countP LibCall.isInfer ≤ 1 ∧
    (∀ s a : String, ∀ rest : List String, ∀ m : Model,
      W.load_model "base" = Except.ok m →
      (mainRunTr W (s :: a :: rest)).2.countP LibCall.isInfer = 1) := by
  subst h
  refine ⟨rfl, ?_, ?_⟩
  · rcases argv₁ with _ | ⟨s, _ | ⟨a, rest⟩⟩
    · simp [mainRunTr]
    · simp [mainRunTr]
    · rw [mainRunTr_cons_trace]
      rcases transcribeTr_trace W a with h | h <;>
        simp [h, List.countP_cons, List.countP_nil, LibCall.isInfer]
  · intro s a rest m hm
    rw [mainRunTr_cons_trace, transcribeTr_trace_of_load W m a hm]
    simp [List.countP_cons, List.countP_nil, LibCall.isInfer]

/-- Witness for C7 at a concrete library valuation and argument
list. -/
theorem deterministic_single_inference_witness :
    mainRunTr okLib ["whisper_transcribe.py", "audio.wav"] =
      mainRunTr okLib ["whisper_transcribe.py", "audio.wav"] ∧
    (mainRunTr okLib
      ["whisper_transcribe.py", "audio.wav"]).2.countP LibCall.isInfer ≤ 1 ∧
    (mainRunTr okLib
      ["whisper_transcribe.py", "audio.wav"]).2.countP LibCall.isInfer = 1 :=
  ⟨(deterministic_single_inference okLib ["whisper_transcribe.py", "audio.wav"]
      ["whisper_transcribe.py", "audio.wav"] rfl).1,
   (deterministic_single_inference okLib ["whisper_transcribe.py", "audio.wav"]
      ["whisper_transcribe.py", "audio.wav"] rfl).2.1,
   (deterministic_single_inference okLib ["whisper_transcribe.py", "audio.wav"]
      ["whisper_transcribe.py", "audio.wav"] rfl).2.2
      "whisper_transcribe.py" "audio.wav" [] () rfl⟩

/-- C8: command-line arguments after the first positional one do not
affect the run: two invocations that agree on the script name and the
first positional argument produce the same outcome. -/
theorem extra_arguments_ignored {Model : Type} (W : WhisperLib Model)
    (s a : String) (rest₁ rest₂ : List String) :
    mainRun W (s :: a :: rest₁) = mainRun W (s :: a :: rest₂) := by
  rw [mainRun_cons W s a rest₁, mainRun_cons W s a rest₂]

/-- C9: on the missing-argument path the usage message is written to
standard output and nothing is written to standard error. -/
theorem usage_on_stdout {Model : Type} (W : WhisperLib Model)
    (argv : List String) (h : argv.length < 2) :
    ∃ out : RunResult, mainRun W argv = Except.ok out ∧
      out.stdout = [usageMessage] ∧ out.stderr = [] := by
  refine ⟨{ stdout := [usageMessage], stderr := [], exitCode := 1 }, ?_, rfl, rfl⟩
  simp [mainRun, h]

/-- Witness for C9 at a concrete argument list. -/
theorem usage_on_stdout_witness :
    ∃ out : RunResult, mainRun okLib ["whisper_transcribe.py"] = Except.ok out ∧
      out.stdout = [usageMessage] ∧ out.stderr = [] :=
  usage_on_stdout okLib ["whisper_transcribe.py"] (by decide)

/-- C10: every run that calls the library loads exactly the model
named base: the model-load calls recorded in the trace of transcribe,
and in the trace of any run with a positional argument, are the single
call load base, independent of the audio path and of the remaining
arguments. -/
theorem model_selection_constant {Model : Type} (W : WhisperLib Model)
    (audio_path s a : String) (rest : List String) :
    (transcribeTr W audio_path).2.filter LibCall.isLoad =
      [LibCall.load "base"] ∧
    (mainRunTr W (s :: a :: rest)).2.filter LibCall.isLoad =
      [LibCall.load "base"] := by
  constructor
  · rcases transcribeTr_trace W audio_path with h | h <;>
      simp [h, List.filter_cons, List.filter_nil, LibCall.isLoad]
  · rw [mainRunTr_cons_trace]
    rcases transcribeTr_trace W a with h | h <;>
      simp [h, List.filter_cons, List.filter_nil, LibCall.isLoad]
